import Mathlib

set_option maxRecDepth 8192

/-!
Verification of the bot lifecycle / webhook-routing core of the
tele-bot-genius-ai repository, shallowly embedded in Lean 4.

Source files embedded:
  * src/bot_runner_server.py        (Flask process-runner server)
  * src/modal_platform/bot_runtime.py   (serverless volume-backed runtime)
  * src/modal_platform/bot_generator.py (AI code generation / modification)

Python dictionaries are modelled as association lists with at most one
entry per key (insertion replaces the entry in place, deletion removes it).
The filesystem / Modal volume is a map from absolute path to file content.
External effects (subprocess spawn, HTTP forwarding, the OpenAI call,
Python's randomized string hash, wall-clock timestamps) are passed in as
explicit parameters, exactly where the source consults them.
-/

/-- Association-list model of a Python `dict` keyed by strings. -/
abbrev Dict (α : Type) := List (String × α)

/-- `d[k]` lookup: first (and, for well-formed dicts, only) binding of `k`. -/
def dictGet {α : Type} (m : Dict α) (k : String) : Option α :=
  match m with
  | [] => none
  | (k2, v) :: rest => if k2 = k then some v else dictGet rest k

/-- `d[k] = v`: replace the binding of `k` in place, or append a new one. -/
def dictSet {α : Type} (m : Dict α) (k : String) (v : α) : Dict α :=
  match m with
  | [] => [(k, v)]
  | (k2, v2) :: rest => if k2 = k then (k2, v) :: rest else (k2, v2) :: dictSet rest k v

/-- `del d[k]`: remove the binding of `k` (all of them, of which a
well-formed dict has at most one). -/
def dictDel {α : Type} (m : Dict α) (k : String) : Dict α :=
  m.filter (fun kv => kv.fst ≠ k)

/-! ### Python string primitives

Faithful models of the Python string operations the source relies on:
substring search (`in`, `str.find`), `str.replace`, `str.lower`,
slicing and `str.strip`. All work on the character list underlying a
Lean `String` so that everything reduces in the kernel. -/

/-- Index of the first occurrence of `pat` in `l`, if any. -/
def findSubList (pat : List Char) : List Char → Option Nat
  | [] => if pat = [] then some 0 else none
  | c :: rest =>
    if pat.isPrefixOf (c :: rest) then some 0
    else (findSubList pat rest).map (· + 1)

/-- Python `pat in s` (substring containment). -/
def containsSub (s pat : String) : Bool :=
  (findSubList pat.data s.data).isSome

/-- Replace all non-overlapping occurrences of `pat` (assumed non-empty in
this codebase) by `repl`, left to right, like Python `str.replace`.
The fuel is the length of the remaining input; each step consumes at
least one character, so `fuel = l.length` computes the full result while
keeping the recursion structural (kernel-reducible). -/
def replaceFuel (fuel : Nat) (pat repl : List Char) (l : List Char) : List Char :=
  match fuel, l with
  | 0, l => l
  | _ + 1, [] => []
  | fuel + 1, c :: rest =>
    if pat.isPrefixOf (c :: rest) && decide (0 < pat.length) then
      repl ++ replaceFuel fuel pat repl (rest.drop (pat.length - 1))
    else
      c :: replaceFuel fuel pat repl rest

/-- Python `s.replace(pat, repl)`. -/
def pyReplace (s pat repl : String) : String :=
  String.mk (replaceFuel s.data.length pat.data repl.data s.data)

/-- Python `s.lower()` (ASCII, which is all this codebase uses). -/
def pyLower (s : String) : String := s.map Char.toLower

/-- Python `s[:n]`. -/
def pyTake (n : Nat) (s : String) : String := String.mk (s.data.take n)

/-- Python `s.find(pat, start)`: index of the first occurrence at or after
`start`, or `-1`. -/
def pyFind (s pat : String) (start : Nat) : Int :=
  match findSubList pat.data (s.data.drop start) with
  | some i => ((i + start : Nat) : Int)
  | none => -1

/-- Python `s[a:b]` for `0 ≤ a ≤ b`. -/
def pySlice (s : String) (a b : Nat) : String :=
  String.mk ((s.data.drop a).take (b - a))

/-- `pre` is a leading piece of `s` (used for `os.path` reasoning below). -/
def strStarts (s pre : String) : Bool :=
  pre.data.isPrefixOf s.data

/-- Python universal-newline translation on reading a file in text mode
with the default `newline=None` (as every `open(..., "r")` in
bot_runtime.py does): `"\r\n"` and a lone `"\r"` both become `"\n"`.
Writing in text mode on Linux (`os.linesep = "\n"`) leaves the text
unchanged, so only reads translate. -/
def univNewlinesList : List Char → List Char
  | [] => []
  | '\r' :: '\n' :: rest => '\n' :: univNewlinesList rest
  | '\r' :: rest => '\n' :: univNewlinesList rest
  | c :: rest => c :: univNewlinesList rest

/-- Universal-newline translation of a whole string (text-mode read). -/
def univNewlines (s : String) : String := String.mk (univNewlinesList s.data)

/-- Whether the text contains a carriage return — exactly the sources on
which text-mode reading is not the identity. -/
def hasCR (s : String) : Bool := s.data.any (fun c => c = '\r')

/-! ### bot_runner_server.py — code patching helpers

`hash(bot_id)` is Python's randomized string hash; every function below that
needs it takes the hash value `hv : Nat` as an explicit parameter. -/

/-- `5000 + hash(bot_id) % 1000` (bot_runner_server.py:91,105,307,355). -/
def botPort (hv : Nat) : Nat := 5000 + hv % 1000

/-- The webhook call substituted for `application.run_polling()`
(bot_runner_server.py:89-92 and 305-308). `\x7b`/`\x7d` are literal braces
and `\x27` a literal single quote in the generated Python text. -/
def webhookReplacement (hv : Nat) (botId : String) : String :=
  "application.run_webhook(listen=\"0.0.0.0\", port=" ++ toString (botPort hv) ++
    ", webhook_url=f\"\x7bos.getenv(\x27WEBHOOK_URL\x27, \x27http://localhost:3000\x27)\x7d/webhook/" ++
    botId ++ "\")"

/-- The `webhook_setup` snippet appended when the generated code has neither
`run_polling()` nor `run_webhook(` (bot_runner_server.py:97-107). -/
def webhookSetup (hv : Nat) (botId : String) : String :=
  "\n    # Set up webhook\n    webhook_url = f\"\x7bos.getenv(\x27WEBHOOK_URL\x27, \x27http://localhost:3000\x27)\x7d/webhook/" ++
    botId ++
    "\"\n    logger.info(f\x27Setting up webhook: \x7bwebhook_url\x7d\x27)\n    \n    # Run with webhook\n    application.run_webhook(\n        listen=\"0.0.0.0\",\n        port=" ++
    toString (botPort hv) ++ ",\n        webhook_url=webhook_url\n    )"

/-- `if __name__ == '__main__':` literal. -/
def mainGuard : String := "if __name__ == \x27__main__\x27:"

/-- fix_python_telegram_bot_imports (bot_runner_server.py:57-75). -/
def fix_python_telegram_bot_imports (code : String) : String :=
  let code :=
    if containsSub code "from telegram import Update, ParseMode" then
      pyReplace code "from telegram import Update, ParseMode"
        "from telegram import Update\nfrom telegram.constants import ParseMode"
    else code
  let code :=
    if containsSub code "ParseMode.MARKDOWN_V2" then
      if !containsSub code "from telegram.constants import ParseMode" then
        pyReplace code "from telegram import Update"
          "from telegram import Update\nfrom telegram.constants import ParseMode"
      else code
    else code
  code

/-- The backwards scan of bot_runner_server.py:117-121 on the reversed line
list: append `setup` to the first line containing `logger.info(` whose
lowercase form contains `running`, leave everything else unchanged. -/
def patchFirstFrom (setup : String) : List String → List String
  | [] => []
  | l :: rest =>
    if containsSub l "logger.info(" && containsSub (pyLower l) "running" then
      (l ++ setup) :: rest
    else l :: patchFirstFrom setup rest

/-- bot_runner_server.py:115-122: scan the lines from the last to the first,
patch the first match, and rejoin. -/
def patchLastMatching (setup : String) (lines : List String) : List String :=
  (patchFirstFrom setup lines.reverse).reverse

/-- The full code transformation of create_bot (bot_runner_server.py:85-122):
the import fixes, the polling→webhook replacement, and the fallback
webhook-setup insertion. -/
def create_webhook_code (hv : Nat) (botId pythonCode : String) : String :=
  let fixed_code := fix_python_telegram_bot_imports pythonCode
  let webhook_code := pyReplace fixed_code "application.run_polling()" (webhookReplacement hv botId)
  if !containsSub fixed_code "run_polling()" && !containsSub fixed_code "run_webhook(" then
    let setup := webhookSetup hv botId
    if containsSub webhook_code mainGuard then
      pyReplace webhook_code (mainGuard ++ "\n    main()") (mainGuard ++ "\n    main()" ++ setup)
    else if containsSub webhook_code "def main()" && containsSub webhook_code "main()" then
      String.intercalate "\n" (patchLastMatching setup (webhook_code.splitOn "\n"))
    else webhook_code
  else webhook_code

/-- The code transformation of update_bot_code (bot_runner_server.py:301-308):
the import fixes plus the polling→webhook replacement only (no fallback
insertion). -/
def update_webhook_code (hv : Nat) (botId newCode : String) : String :=
  pyReplace (fix_python_telegram_bot_imports newCode) "application.run_polling()"
    (webhookReplacement hv botId)

/-! ### bot_runner_server.py — state and request handlers -/

/-- A spawned OS process. `exited = true` models `poll() is not None`;
`terminated` records whether `terminate()` was ever called on it. -/
structure Proc where
  pid : Nat
  exited : Bool
  terminated : Bool
deriving DecidableEq

/-- The module-level mutable state of bot_runner_server.py: the
`running_bots` registry (botId → pid of its process), the table of all
processes ever spawned, `bot_logs`, `bot_errors`, and the working
directory holding the written `bot_<id>.py` files. `nextPid` is the OS
pid counter (fresh pids). -/
structure ServerState where
  running_bots : Dict Nat
  procs : List Proc
  bot_logs : Dict (List String)
  bot_errors : Dict String
  files : Dict String
  nextPid : Nat
deriving DecidableEq

/-- `process.terminate()` on the process with the given pid. -/
def terminateProc (ps : List Proc) (pid : Nat) : List Proc :=
  ps.map (fun p => if p.pid = pid then { p with terminated := true } else p)

/-- Response envelope of create_bot (bot_runner_server.py:148-157). -/
structure CreateResp where
  success : Bool
  containerId : Option String
  message : Option String
  error : Option String
deriving DecidableEq

/-- create_bot (bot_runner_server.py:77-157). `now` is the formatted
timestamp, `hv` the Python hash of `botId`, and `spawnErr` the outcome of
`subprocess.Popen` (`none` = started, `some e` = the raised exception's
message). Note that an existing registry entry for `botId` is silently
overwritten without terminating its process. -/
def create_bot (now : String) (hv : Nat) (spawnErr : Option String)
    (botId containerId pythonCode token : String) (s : ServerState) :
    CreateResp × ServerState :=
  let webhook_code := create_webhook_code hv botId pythonCode
  let s := { s with files := dictSet s.files ("bot_" ++ botId ++ ".py") webhook_code }
  let s := { s with bot_logs := dictSet s.bot_logs botId [],
                    bot_errors := dictSet s.bot_errors botId "" }
  match spawnErr with
  | none =>
    let s := { s with
        procs := s.procs ++ [{ pid := s.nextPid, exited := false, terminated := false }],
        running_bots := dictSet s.running_bots botId s.nextPid,
        nextPid := s.nextPid + 1 }
    ({ success := true, containerId := some containerId,
       message := some "Bot started successfully with webhook and error monitoring",
       error := none }, s)
  | some e =>
    let s := { s with
        bot_errors := dictSet s.bot_errors botId e,
        bot_logs := dictSet s.bot_logs botId
          ((dictGet s.bot_logs botId).getD [] ++ ["[" ++ now ++ "] STARTUP ERROR: " ++ e]) }
    ({ success := false, containerId := none, message := none, error := some e }, s)

/-- Response envelope of stop_bot (bot_runner_server.py:174-176). -/
structure StopResp where
  success : Bool
  error : Option String
deriving DecidableEq

/-- stop_bot (bot_runner_server.py:159-176): terminate and deregister the
process if present (removing the bot file), else report "Bot not found"
as a value. -/
def stop_bot (botId : String) (s : ServerState) : StopResp × ServerState :=
  match dictGet s.running_bots botId with
  | some pid =>
    let s := { s with
        procs := terminateProc s.procs pid,
        running_bots := dictDel s.running_bots botId,
        files := dictDel s.files ("bot_" ++ botId ++ ".py") }
    ({ success := true, error := none }, s)
  | none => ({ success := false, error := some "Bot not found" }, s)

/-- Response of the /status endpoint (bot_runner_server.py:186-200): the
`data` payload flattened (`error` is the optional captured error text). -/
structure StatusResp where
  success : Bool
  running : Bool
  error : Option String
deriving DecidableEq

/-- status (bot_runner_server.py:178-200). Registry pids always refer to
spawned processes; the `getD` default (an exited process) only makes the
lookup total. -/
def statusEndpoint (botId : String) (s : ServerState) : StatusResp :=
  match dictGet s.running_bots botId with
  | some pid =>
    let p := (s.procs.find? (fun q => q.pid == pid)).getD
      { pid := pid, exited := true, terminated := false }
    if !p.exited then { success := true, running := true, error := none }
    else { success := true, running := false,
           error := some ((dictGet s.bot_errors botId).getD "") }
  | none => { success := true, running := false, error := none }

/-- Response envelope of update_bot_code (bot_runner_server.py:329-337). -/
structure UpdateResp where
  success : Bool
  message : Option String
  error : Option String
deriving DecidableEq

/-- update_bot_code (bot_runner_server.py:282-337): terminate-and-remove the
running process if any, reset logs and errors, write the patched new code,
and respawn. `spawnErr` is the outcome of the `Popen` restart; on failure
the exception is reported in the envelope (and recorded in `bot_errors`)
with no rollback of the earlier steps. -/
def update_bot_code (now : String) (hv : Nat) (spawnErr : Option String)
    (botId newCode token : String) (s : ServerState) : UpdateResp × ServerState :=
  let s :=
    match dictGet s.running_bots botId with
    | some pid => { s with
        procs := terminateProc s.procs pid,
        running_bots := dictDel s.running_bots botId }
    | none => s
  let s := { s with bot_logs := dictSet s.bot_logs botId [],
                    bot_errors := dictSet s.bot_errors botId "" }
  let s := { s with files := dictSet s.files ("bot_" ++ botId ++ ".py")
                      (update_webhook_code hv botId newCode) }
  match spawnErr with
  | none =>
    let s := { s with
        procs := s.procs ++ [{ pid := s.nextPid, exited := false, terminated := false }],
        running_bots := dictSet s.running_bots botId s.nextPid,
        nextPid := s.nextPid + 1 }
    ({ success := true, message := some "Bot code updated and restarted successfully",
       error := none }, s)
  | some e =>
    let s := { s with bot_errors := dictSet s.bot_errors botId e }
    ({ success := false, message := none, error := some e }, s)

/-- Response of the /webhook/<bot_id> endpoint (bot_runner_server.py:365,375).
Both branches are plain 200 JSON responses; the handler never raises. -/
structure WebhookResp where
  success : Bool
  forwarded : Bool
  error : Option String
deriving DecidableEq

/-- webhook_handler (bot_runner_server.py:339-375). `forward` is the outcome
of the `requests.post` to the bot's local webhook port (`.ok status` or the
raised exception's message); with no process listening there it is an
error. The inbound update body only flows into the forward itself. -/
def webhook_handler (now : String) (forward : Except String Nat)
    (botId : String) (s : ServerState) : WebhookResp × ServerState :=
  let recvLog := (dictGet s.bot_logs botId).getD [] ++
    ["[" ++ now ++ "] WEBHOOK: Received update from Telegram"]
  let s :=
    if (dictGet s.bot_logs botId).isSome then
      { s with bot_logs := dictSet s.bot_logs botId recvLog }
    else s
  match forward with
  | Except.ok _ => ({ success := true, forwarded := true, error := none }, s)
  | Except.error e =>
    let errLog := (dictGet s.bot_logs botId).getD [] ++
      ["[" ++ now ++ "] WEBHOOK ERROR: " ++ e]
    let s :=
      if (dictGet s.bot_logs botId).isSome then
        { s with bot_logs := dictSet s.bot_logs botId errLog }
      else s
    ({ success := true, forwarded := false, error := some e }, s)

/-- One iteration of the capture_bot_output loop (bot_runner_server.py:30-55)
on a non-empty stdout line. Both `Popen` calls pass `text=True`, so
`readline()` returns `str` and `line.decode('utf-8')` (line 36) raises
`AttributeError` before any append; the function-level handler (line 54)
only prints and the capture loop ends. The in-memory log is therefore left
unchanged — the capture path never appends a log entry. -/
def capture_stdout_line (now botId line : String) (lg : Dict (List String)) :
    Dict (List String) :=
  lg

/-! ### modal_platform/bot_runtime.py — log aggregator and code store

The Modal volume is modelled as a map from absolute path to file content;
`volume.commit()` / `volume.reload()` are consistency points of the external
store and are no-ops on this single-copy model. -/

/-- A formatted in-memory log line (bot_runtime.py:43-44). -/
def logEntry (now level message : String) : String :=
  "[" ++ now ++ "] [" ++ level ++ "] " ++ message

/-- add_bot_log (bot_runtime.py:41-55): append and keep only the last 1000
entries for the bot. `now` is `datetime.now().isoformat()`. -/
def add_bot_log (now botId message level : String) (lg : Dict (List String)) :
    Dict (List String) :=
  let cur := (dictGet lg botId).getD []
  let appended := cur ++ [logEntry now level message]
  let kept :=
    if 1000 < appended.length then appended.drop (appended.length - 1000)
    else appended
  dictSet lg botId kept

/-- The last `n` elements of a list (all of it when it is shorter). -/
def rtakeN (n : Nat) (l : List String) : List String :=
  l.drop (l.length - n)

/-- A sequence of add_bot_log calls for one bot, oldest first. -/
def add_many_logs (now botId level : String) (msgs : List String)
    (lg : Dict (List String)) : Dict (List String) :=
  msgs.foldl (fun acc m => add_bot_log now botId m level acc) lg

/-- `os.path.exists` on the volume model: a path exists as a file (exact
entry) or as a directory (some file strictly below it). -/
def pathExists (fs : Dict String) (p : String) : Bool :=
  fs.any (fun kv => kv.fst == p || strStarts kv.fst (p ++ "/"))

/-- The metadata.json content written by optimized_store_bot_files
(bot_runtime.py:311-325): `json.dump(metadata, f, indent=2)` with the keys
in insertion order. `\x7b`/`\x7d` are literal braces. -/
def metadataJson (botId userId botName now botToken : String) (botCode : String) : String :=
  "\x7b\n  \"bot_id\": \"" ++ botId ++ "\",\n  \"user_id\": \"" ++ userId ++
    "\",\n  \"bot_name\": \"" ++ botName ++ "\",\n  \"created_at\": \"" ++ now ++
    "\",\n  \"status\": \"stored\",\n  \"bot_token\": \"" ++ botToken ++
    "\",\n  \"storage_method\": \"optimized_modal_volume\",\n  \"file_size\": " ++
    toString botCode.length ++ ",\n  \"storage_version\": \"2.0\"\n\x7d"

/-- Result envelope of the store/load Modal functions (payload fields that
no caller in this repository reads — verification text, log echoes,
storage_method tags — are omitted). -/
structure StoreResult where
  success : Bool
  error : Option String
deriving DecidableEq

/-- optimized_store_bot_files (bot_runtime.py:278-393): write `main.py`
(text-mode write, identity on Linux), read it back in text mode — which
applies universal-newline translation — and raise
"File content verification failed" (caught by the function's own handler
at line 383) when the read-back differs from the submitted code, i.e.
exactly when the code contains a carriage return. Otherwise write the
metadata record and the initial log file under `/data/bots/<user>/<bot>/`
and commit. -/
def optimized_store_bot_files (now : String)
    (botId userId botCode botToken botName : String)
    (fs : Dict String) (lg : Dict (List String)) :
    StoreResult × Dict String × Dict (List String) :=
  let lg := add_bot_log now botId ("Starting optimized storage for bot " ++ botId) "INFO" lg
  let botDir := "/data/bots/" ++ userId ++ "/" ++ botId
  let lg := add_bot_log now botId "Directory structure created" "INFO" lg
  let fs := dictSet fs (botDir ++ "/main.py") botCode
  let stored_content := univNewlines botCode
  if stored_content ≠ botCode then
    let lg := add_bot_log now botId "Storage error: File content verification failed" "ERROR" lg
    ({ success := false, error := some "File content verification failed" }, fs, lg)
  else
    let lg := add_bot_log now botId
      ("main.py written and verified (" ++ toString botCode.length ++ " chars)") "INFO" lg
    let fs := dictSet fs (botDir ++ "/metadata.json")
      (metadataJson botId userId botName now botToken botCode)
    let lg := add_bot_log now botId "Metadata written successfully" "INFO" lg
    let fs := dictSet fs (botDir ++ "/logs/bot.log")
      ("[" ++ now ++ "] [INFO] Bot " ++ botId ++ " stored successfully\n")
    let lg := add_bot_log now botId "Initial log file created" "INFO" lg
    let lg := add_bot_log now botId "Volume committed successfully" "INFO" lg
    ({ success := true, error := none }, fs, lg)

/-- Result of optimized_load_bot_files: the `files` payload maps file name
to content. -/
structure LoadResult where
  success : Bool
  error : Option String
  files : Dict String
deriving DecidableEq

/-- optimized_load_bot_files (bot_runtime.py:401-521): reload, check the bot
directory, read `main.py` and `metadata.json` when present — text-mode
reads, so the returned contents are universal-newline translated; success
iff at least one file was read and `main.py` is among them. -/
def optimized_load_bot_files (botId userId : String) (fs : Dict String) : LoadResult :=
  let botDir := "/data/bots/" ++ userId ++ "/" ++ botId
  if !pathExists fs botDir then
    { success := false, error := some "Bot directory not found after volume reload",
      files := [] }
  else
    let files : Dict String :=
      match dictGet fs (botDir ++ "/main.py") with
      | some c => [("main.py", univNewlines c)]
      | none => []
    let files :=
      match dictGet fs (botDir ++ "/metadata.json") with
      | some m => files ++ [("metadata.json", univNewlines m)]
      | none => files
    { success := decide (0 < files.length) && (dictGet files "main.py").isSome,
      error := none, files := files }

/-- Python truthiness of an optional string field (`body.get(...)`):
absent and empty are both falsy. -/
def pyTruthy (o : Option String) : Bool :=
  match o with
  | none => false
  | some s => !(s == "")

/-- optimized_store_bot_endpoint (bot_runtime.py:948-977): validate that
user_id, bot_code and bot_token are present and non-empty; on failure the
raised `HTTPException(400, "Missing required fields")` is caught by the
endpoint's own generic handler and reported as a `success=false` envelope;
otherwise call optimized_store_bot_files. -/
def optimized_store_bot_endpoint (now botId : String)
    (user_id bot_code bot_token bot_name : Option String)
    (fs : Dict String) (lg : Dict (List String)) :
    StoreResult × Dict String × Dict (List String) :=
  if !(pyTruthy user_id && pyTruthy bot_code && pyTruthy bot_token) then
    ({ success := false, error := some "400: Missing required fields" }, fs, lg)
  else
    optimized_store_bot_files now botId (user_id.getD "") (bot_code.getD "")
      (bot_token.getD "") (bot_name.getD ("Bot " ++ botId)) fs lg

/-! ### modal_platform/bot_runtime.py — webhook routing -/

/-- An entry of the in-memory `bot_instances` registry
(bot_runtime.py:1083-1087); the executing handler object is opaque. -/
structure InstanceInfo where
  loadedAt : String
deriving DecidableEq

/-- The mutable state the Modal web service closes over: `bot_instances`,
`bot_logs`, and the volume. -/
structure ModalState where
  bot_instances : Dict InstanceInfo
  bot_logs : Dict (List String)
  fs : Dict String
deriving DecidableEq

/-- Outcome of `exec`-ing the stored bot code inside load_bot_instance
(bot_runtime.py:1071-1094): it raised, defined no application object, or
produced a handler that initialized successfully. -/
inductive ExecOutcome where
  | raises (msg : String)
  | noApp
  | loaded
deriving DecidableEq

/-- `os.listdir("/data/bots")` on the volume model: the distinct first path
components below `dir`, in first-occurrence order. -/
def childNames (fs : Dict String) (dir : String) : List String :=
  ((fs.map Prod.fst).filterMap (fun p =>
    if strStarts p (dir ++ "/") then
      some (String.mk ((p.data.drop (dir.length + 1)).takeWhile (fun c => c != '/')))
    else none)).dedup

/-- The user-directory scan of handle_webhook (bot_runtime.py:1117-1122):
every user directory that contains `botId`. -/
def userDirs (fs : Dict String) (botId : String) : List String :=
  (childNames fs "/data/bots").filter
    (fun u => pathExists fs ("/data/bots/" ++ u ++ "/" ++ botId))

/-- load_bot_instance (bot_runtime.py:1043-1099): read metadata and code
from the volume (a missing file raises, caught by its own handler), exec
the code, and on success register the instance. Returns the Python
function's boolean. -/
def load_bot_instance (now : String) (execOut : ExecOutcome)
    (botId userId : String) (st : ModalState) : Bool × ModalState :=
  let st := { st with bot_logs := add_bot_log now botId ("Loading bot instance " ++ botId) "INFO" st.bot_logs }
  let dir := "/data/bots/" ++ userId ++ "/" ++ botId
  match dictGet st.fs (dir ++ "/metadata.json"), dictGet st.fs (dir ++ "/main.py") with
  | some _, some _ =>
    let st := { st with bot_logs := add_bot_log now botId "Bot code loaded from volume" "INFO" st.bot_logs }
    match execOut with
    | ExecOutcome.raises e =>
      (false, { st with bot_logs := add_bot_log now botId ("Error loading bot: " ++ e) "ERROR" st.bot_logs })
    | ExecOutcome.noApp =>
      (false, { st with bot_logs := add_bot_log now botId "No application instance found in bot code" "ERROR" st.bot_logs })
    | ExecOutcome.loaded =>
      (true, { st with
          bot_instances := dictSet st.bot_instances botId { loadedAt := now },
          bot_logs := add_bot_log now botId "Bot loaded and initialized successfully" "INFO" st.bot_logs })
  | _, _ =>
    (false, { st with bot_logs := add_bot_log now botId "Error loading bot: [Errno 2] No such file or directory" "ERROR" st.bot_logs })

/-- What the modal handle_webhook hands back to the HTTP layer: a plain 200
JSON body, or a raised `HTTPException(status, detail)` — a transport-level
error response. -/
inductive HResp where
  | json (ok : Bool) (error : Option String)
  | httpError (status : Nat) (detail : String)
deriving DecidableEq

/-- handle_webhook (bot_runtime.py:1101-1152). `bodyResult` is the outcome
of `await request.json()` (rendered through `json.dumps` for the log line);
`updateParsed` is whether `Update.de_json` produced an update; `processOut`
is the outcome of `bot_handler.process_update`. Any exception escaping the
body of the outer `try` is logged and re-raised as `HTTPException(500)`. -/
def handle_webhook (now : String) (bodyResult : Except String String)
    (execOut : ExecOutcome) (updateParsed : Bool) (processOut : Except String Unit)
    (botId : String) (st : ModalState) : HResp × ModalState :=
  match bodyResult with
  | Except.error e =>
    (HResp.httpError 500 e,
     { st with bot_logs := add_bot_log now botId ("Webhook error: " ++ e) "ERROR" st.bot_logs })
  | Except.ok body =>
    let st := { st with bot_logs := add_bot_log now botId ("Received webhook: " ++ pyTake 100 body ++ "...") "INFO" st.bot_logs }
    let st :=
      if (dictGet st.bot_instances botId).isNone then
        match userDirs st.fs botId with
        | [] => st
        | u :: _ => (load_bot_instance now execOut botId u st).2
      else st
    match dictGet st.bot_instances botId with
    | some _ =>
      if updateParsed then
        match processOut with
        | Except.ok _ =>
          (HResp.json true none,
           { st with bot_logs := add_bot_log now botId "Webhook processed successfully" "INFO" st.bot_logs })
        | Except.error e =>
          (HResp.httpError 500 e,
           { st with bot_logs := add_bot_log now botId ("Webhook error: " ++ e) "ERROR" st.bot_logs })
      else (HResp.json true none, st)
    | none =>
      (HResp.json false (some "Bot not found"),
       { st with bot_logs := add_bot_log now botId "Bot not found or not loaded" "ERROR" st.bot_logs })

/-! ### modal_platform/bot_generator.py — modify_bot_code -/

/-- Result envelope of modify_bot_code (bot_generator.py:285-303). -/
structure ModifyResult where
  success : Bool
  error : Option String
  explanation : String
  code : String
  files : Dict String
deriving DecidableEq

/-- modify_bot_code (bot_generator.py:210-303). `llm` is the outcome of the
OpenAI chat-completion call (`.ok` = the assistant's full response text,
`.error` = the raised exception's message); everything after the call is
pure string processing, and any exception lands in the handler that
returns the caller's `current_code` unchanged. -/
def modify_bot_code (botId userId modificationPrompt currentCode : String)
    (llm : Except String String) : ModifyResult :=
  match llm with
  | Except.error e =>
    { success := false, error := some e, explanation := "Failed to modify bot code",
      code := currentCode, files := [] }
  | Except.ok assistantResponse =>
    let codeStart := pyFind assistantResponse "```python" 0
    let codeEnd := pyFind assistantResponse "```" (Int.toNat (codeStart + 9))
    let reqs := "python-telegram-bot>=20.0\npython-dotenv>=1.0.0\nrequests>=2.28.0"
    if codeStart != -1 && codeEnd != -1 then
      let modifiedCode :=
        (pySlice assistantResponse (Int.toNat (codeStart + 9)) (Int.toNat codeEnd)).trim
      { success := true, error := none,
        explanation := (pySlice assistantResponse 0 (Int.toNat codeStart)).trim,
        code := modifiedCode,
        files := [("main.py", modifiedCode), ("requirements.txt", reqs)] }
    else
      { success := true, error := none,
        explanation := "Modified bot code based on: " ++ modificationPrompt,
        code := assistantResponse,
        files := [("main.py", assistantResponse), ("requirements.txt", reqs)] }


/-! ### Spec-side decomposition of update_bot_code (§4.1 updateCode)

The spec describes `updateCode` as a strict sequence
"stop-if-running, overwrite sourceCode, clear logs, start again".
Each step below is named after the spec's phase; the refinement theorem
compares their composition with `update_bot_code` as embedded from the
source. -/

/-- Spec step 1: terminate and deregister the running instance, if any. -/
def stopIfRunningStep (botId : String) (s : ServerState) : ServerState :=
  match dictGet s.running_bots botId with
  | some pid => { s with
      procs := terminateProc s.procs pid,
      running_bots := dictDel s.running_bots botId }
  | none => s

/-- Spec step 2: overwrite the stored source with the (patched) new code. -/
def overwriteCodeStep (hv : Nat) (botId newCode : String) (s : ServerState) : ServerState :=
  let patched := update_webhook_code hv botId newCode
  { s with files := dictSet s.files ("bot_" ++ botId ++ ".py") patched }

/-- Spec step 3: clear the bot's logs and recorded errors. -/
def clearLogsStep (botId : String) (s : ServerState) : ServerState :=
  { s with bot_logs := dictSet s.bot_logs botId [],
           bot_errors := dictSet s.bot_errors botId "" }

/-- Spec step 4: start the bot again; on spawn failure record the error. -/
def startAgainStep (spawnErr : Option String) (botId : String) (s : ServerState) :
    ServerState :=
  match spawnErr with
  | none => { s with
      procs := s.procs ++ [{ pid := s.nextPid, exited := false, terminated := false }],
      running_bots := dictSet s.running_bots botId s.nextPid,
      nextPid := s.nextPid + 1 }
  | some e => { s with bot_errors := dictSet s.bot_errors botId e }

/-! ### Concrete states used by witnesses and counterexamples -/

/-- A fresh bot_runner_server state: no bots, no processes, no files. -/
def emptyServer : ServerState :=
  { running_bots := [], procs := [], bot_logs := [], bot_errors := [],
    files := [], nextPid := 0 }

/-- A server state with bot "b1" running as pid 0 (never terminated). -/
def serverWithBot : ServerState :=
  { running_bots := [("b1", 0)],
    procs := [{ pid := 0, exited := false, terminated := false }],
    bot_logs := [("b1", [])], bot_errors := [("b1", "")],
    files := [("bot_b1.py", "print(1)")], nextPid := 1 }

/-- A fresh Modal service state: nothing loaded, empty volume. -/
def emptyModal : ModalState :=
  { bot_instances := [], bot_logs := [], fs := [] }

/-- A Modal service state with bot "b1" already loaded. -/
def modalWithBot : ModalState :=
  { bot_instances := [("b1", { loadedAt := "t0" })], bot_logs := [], fs := [] }

/-- Registry keys are pairwise distinct (the "at most one handle per botId"
well-formedness of a Python dict). -/
def keysNodup (m : Dict Nat) : Prop :=
  (m.map Prod.fst).Nodup

/-! ### Basic lemmas about the dictionary and string models -/

theorem dictGet_dictSet_self {α : Type} (m : Dict α) (k : String) (v : α) :
    dictGet (dictSet m k v) k = some v := by
  induction m with
  | nil => simp [dictGet, dictSet]
  | cons kv rest ih =>
    by_cases h : kv.fst = k
    · simp [dictGet, dictSet, h]
    · simp [dictGet, dictSet, h, ih]

theorem dictGet_dictSet_ne {α : Type} (m : Dict α) {k k' : String} (v : α) (h : k' ≠ k) :
    dictGet (dictSet m k v) k' = dictGet m k' := by
  induction m with
  | nil => simp [dictGet, dictSet, Ne.symm h]
  | cons kv rest ih =>
    obtain ⟨k2, v2⟩ := kv
    by_cases h2 : k2 = k
    · subst h2
      simp [dictGet, dictSet, Ne.symm h]
    · by_cases h3 : k2 = k'
      · simp [dictGet, dictSet, h2, h3, h, ih]
      · simp [dictGet, dictSet, h2, h3, ih]

theorem dictGet_dictDel_self {α : Type} (m : Dict α) (k : String) :
    dictGet (dictDel m k) k = none := by
  induction m with
  | nil => simp [dictGet, dictDel]
  | cons kv rest ih =>
    obtain ⟨k2, v2⟩ := kv
    by_cases h : k2 = k
    · simpa [dictDel, List.filter_cons, h] using ih
    · simpa [dictDel, List.filter_cons, h, dictGet] using ih

theorem dictGet_mem {α : Type} {m : Dict α} {k : String} {v : α}
    (h : dictGet m k = some v) : (k, v) ∈ m := by
  induction m with
  | nil => simp [dictGet] at h
  | cons kv rest ih =>
    obtain ⟨k2, v2⟩ := kv
    by_cases h2 : k2 = k
    · simp [dictGet, h2] at h
      subst h2 h
      exact List.mem_cons_self _ _
    · simp [dictGet, h2] at h
      exact List.mem_cons_of_mem _ (ih h)

theorem isPrefixOf_append_self (l r : List Char) : l.isPrefixOf (l ++ r) = true := by
  induction l with
  | nil => simp [List.isPrefixOf]
  | cons c cs ih => simp [List.isPrefixOf, ih]

theorem strStarts_append (a b : String) : strStarts (a ++ b) a = true := by
  simp [strStarts, String.data_append, isPrefixOf_append_self]

theorem string_append_right_ne (d : String) {a b : String} (h : a ≠ b) :
    d ++ a ≠ d ++ b := by
  intro hcontra
  apply h
  have hdata : d.data ++ a.data = d.data ++ b.data := by
    simpa [String.data_append] using congrArg String.data hcontra
  have hd : a.data = b.data := List.append_cancel_left hdata
  cases a
  cases b
  exact congrArg String.mk hd

/-! ### Lifecycle helper lemmas -/

theorem stop_bot_not_found {botId : String} {s : ServerState}
    (h : dictGet s.running_bots botId = none) :
    stop_bot botId s = ({ success := false, error := some "Bot not found" }, s) := by
  simp [stop_bot, h]

theorem stop_bot_removes (botId : String) (s : ServerState) :
    dictGet ((stop_bot botId s).2).running_bots botId = none := by
  rcases h : dictGet s.running_bots botId with _ | pid
  · simp [stop_bot, h]
  · simp [stop_bot, h, dictGet_dictDel_self]

theorem status_of_unregistered {botId : String} {s : ServerState}
    (h : dictGet s.running_bots botId = none) :
    statusEndpoint botId s = { success := true, running := false, error := none } := by
  simp [statusEndpoint, h]

/-! ### Claim theorems -/

/-- C9: when modifying existing bot code fails for any reason (the OpenAI
call raises), modify_bot_code returns the caller's original current_code
unchanged in the `code` field of its `success=false` envelope — a failed
modification never hands back altered or empty source text. -/
theorem c9_modify_failure_preserves_code
    (botId userId modificationPrompt currentCode e : String) :
    modify_bot_code botId userId modificationPrompt currentCode (Except.error e) =
      { success := false, error := some e, explanation := "Failed to modify bot code",
        code := currentCode, files := [] } := rfl

/-- C10: querying /status for a botId with no registry entry (unknown bot,
or a bot that was stopped) returns `success=true` with `running=false` and
no error payload — never a not-found error envelope. -/
theorem c10_status_unknown_bot (botId : String) (s : ServerState)
    (h : dictGet s.running_bots botId = none) :
    statusEndpoint botId s = { success := true, running := false, error := none } :=
  status_of_unregistered h

/-- Witness for C10 at a concrete unknown bot. -/
theorem c10_status_unknown_bot_witness :
    statusEndpoint "b1" emptyServer =
      { success := true, running := false, error := none } :=
  c10_status_unknown_bot "b1" emptyServer rfl

/-- C6: stop is idempotent at the error boundary. Calling stop with no live
handle returns `success=false` with "Bot not found" (reported, not raised)
and leaves the state untouched; calling stop twice in a row leaves the
state produced by the first stop (and hence the registry and the stopped
status) unchanged after the second call. -/
theorem c6_stop_idempotent (botId : String) (s : ServerState) :
    (dictGet s.running_bots botId = none →
      stop_bot botId s = ({ success := false, error := some "Bot not found" }, s)) ∧
    stop_bot botId ((stop_bot botId s).2) =
      ({ success := false, error := some "Bot not found" }, (stop_bot botId s).2) ∧
    statusEndpoint botId ((stop_bot botId s).2) =
      { success := true, running := false, error := none } :=
  ⟨fun h0 => stop_bot_not_found h0,
   stop_bot_not_found (stop_bot_removes botId s),
   status_of_unregistered (stop_bot_removes botId s)⟩

/-- Witness for C6: a bot that was actually running, stopped once, then
stopped again — the second call reports "Bot not found" and changes
nothing; and stop on a fresh server reports the same without raising. -/
theorem c6_stop_idempotent_witness :
    stop_bot "b1" emptyServer =
      ({ success := false, error := some "Bot not found" }, emptyServer) ∧
    stop_bot "b1" ((stop_bot "b1" serverWithBot).2) =
      ({ success := false, error := some "Bot not found" },
        (stop_bot "b1" serverWithBot).2) ∧
    statusEndpoint "b1" ((stop_bot "b1" serverWithBot).2) =
      { success := true, running := false, error := none } :=
  ⟨(c6_stop_idempotent "b1" emptyServer).1 rfl,
   (c6_stop_idempotent "b1" serverWithBot).2.1,
   (c6_stop_idempotent "b1" serverWithBot).2.2⟩

/-- C3: for a botId with no InstanceHandle and no matching stored record,
routing an update returns a "not forwarded" result without raising: the
Modal handler answers `ok=false, "Bot not found"` as a plain 200 JSON body,
and the process-runner's webhook_handler (whose forward to the bot's local
port fails when nothing listens there) answers `success=true,
forwarded=false` — in both cases a value, never a transport-level error. -/
theorem c3_unknown_bot_route (now b e botId : String) (ex : ExecOutcome)
    (upd : Bool) (po : Except String Unit) (st : ModalState) (s : ServerState) :
    (dictGet st.bot_instances botId = none → userDirs st.fs botId = [] →
      (handle_webhook now (Except.ok b) ex upd po botId st).1 =
        HResp.json false (some "Bot not found")) ∧
    (webhook_handler now (Except.error e) botId s).1 =
      { success := true, forwarded := false, error := some e } := by
  constructor
  · intro h1 h2
    simp [handle_webhook, h1, h2]
  · simp [webhook_handler]

/-- Witness for C3 at a concrete unknown bot on both routers. -/
theorem c3_unknown_bot_route_witness :
    (handle_webhook "t" (Except.ok "u") ExecOutcome.loaded true (Except.ok ())
        "b1" emptyModal).1 = HResp.json false (some "Bot not found") ∧
    (webhook_handler "t" (Except.error "connection refused") "b1" emptyServer).1 =
      { success := true, forwarded := false, error := some "connection refused" } :=
  ⟨(c3_unknown_bot_route "t" "u" "connection refused" "b1" ExecOutcome.loaded true
      (Except.ok ()) emptyModal emptyServer).1 rfl rfl,
   (c3_unknown_bot_route "t" "u" "connection refused" "b1" ExecOutcome.loaded true
      (Except.ok ()) emptyModal emptyServer).2⟩

/-! ### Ring-buffer lemmas for the Modal log aggregator -/

theorem rtakeN_length (n : Nat) (l : List String) :
    (rtakeN n l).length = min l.length n := by
  simp [rtakeN, List.length_drop]
  omega

theorem rtakeN_append_collapse (n : Nat) (xs ys : List String) :
    rtakeN n (rtakeN n xs ++ ys) = rtakeN n (xs ++ ys) := by
  unfold rtakeN
  rw [List.drop_append_eq_append_drop, List.drop_append_eq_append_drop, List.drop_drop]
  congr 1
  · congr 1
    simp [List.length_append, List.length_drop]
    omega
  · congr 1
    simp [List.length_append, List.length_drop]
    omega

theorem rtakeN_of_le {l : List String} (h : l.length ≤ 1000) : rtakeN 1000 l = l := by
  unfold rtakeN
  have h0 : l.length - 1000 = 0 := by omega
  simp [h0]

/-- add_bot_log stores exactly the last 1000 of the extended log. -/
theorem add_bot_log_lookup (now botId message level : String) (lg : Dict (List String)) :
    dictGet (add_bot_log now botId message level lg) botId =
      some (rtakeN 1000 ((dictGet lg botId).getD [] ++ [logEntry now level message])) := by
  unfold add_bot_log
  rw [dictGet_dictSet_self]
  congr 1
  split
  · rfl
  · next h =>
    unfold rtakeN
    have h0 : ((dictGet lg botId).getD [] ++ [logEntry now level message]).length - 1000 = 0 := by
      omega
    rw [h0, List.drop_zero]

/-- Fold characterization: a run of add_bot_log calls keeps exactly the last
1000 entries of everything ever appended (starting from a log within
capacity). -/
theorem add_many_logs_lookup (now botId level : String) (msgs : List String) :
    ∀ lg : Dict (List String), ((dictGet lg botId).getD []).length ≤ 1000 →
      (dictGet (add_many_logs now botId level msgs lg) botId).getD [] =
        rtakeN 1000 ((dictGet lg botId).getD [] ++ msgs.map (fun m => logEntry now level m)) := by
  induction msgs with
  | nil =>
    intro lg h
    simp [add_many_logs, rtakeN_of_le h]
  | cons m ms ih =>
    intro lg h
    have step := add_bot_log_lookup now botId m level lg
    have hlen : ((dictGet (add_bot_log now botId m level lg) botId).getD []).length ≤ 1000 := by
      rw [step]
      simp [rtakeN_length]
    have := ih (add_bot_log now botId m level lg) hlen
    rw [show add_many_logs now botId level (m :: ms) lg =
          add_many_logs now botId level ms (add_bot_log now botId m level lg) from rfl]
    rw [this, step]
    simp only [Option.getD_some]
    rw [rtakeN_append_collapse]
    simp [List.append_assoc]

/-- The webhook handler's log append for a bot with a log buffer: one entry
added, nothing evicted, at any current length. -/
theorem webhook_handler_ok_log {now botId : String} {code : Nat} {s : ServerState}
    {L : List String} (h : dictGet s.bot_logs botId = some L) :
    dictGet ((webhook_handler now (Except.ok code) botId s).2).bot_logs botId =
      some (L ++ ["[" ++ now ++ "] WEBHOOK: Received update from Telegram"]) := by
  simp [webhook_handler, h, dictGet_dictSet_self]

/-- C5 counterexample (the claim as stated): the process-runner server's
per-bot in-memory log has no capacity bound — its webhook handler appends
with no eviction, so one more inbound delivery for a bot whose log already
holds 1000 entries leaves 1001 entries, exceeding the configured capacity
N = 1000. (The server's capture_bot_output path never appends at all: with
`text=True` its `line.decode` raises before the append.) -/
theorem c5_counterexample :
    ((dictGet ((webhook_handler "t" (Except.ok 200) "b1"
        { running_bots := [], procs := [],
          bot_logs := [("b1", List.replicate 1000 "x")], bot_errors := [],
          files := [], nextPid := 0 }).2).bot_logs "b1").getD []).length = 1001 := by
  rw [webhook_handler_ok_log (show dictGet [("b1", List.replicate 1000 "x")] "b1" =
    some (List.replicate 1000 "x") from rfl)]
  simp [List.length_append, List.length_replicate]

/-- C5 (amended): the Modal runtime's add_bot_log is a bounded ring buffer —
any single append leaves at most 1000 entries, and a sequence of appends
starting from an empty log retains exactly the last 1000 appended entries
in order (all of them while fewer than 1000). The process-runner server has
no such bound: its webhook handler appends one entry per delivery with no
eviction at any length (see the counterexample), while its
capture_bot_output path never appends at all — `line.decode('utf-8')` on
the `str` returned by a `text=True` pipe raises before the append and is
swallowed by the function-level handler. -/
theorem c5_amended_ringbuffer (now botId level message line : String)
    (msgs : List String) (lg : Dict (List String)) (s : ServerState)
    (L : List String) :
    ((dictGet (add_bot_log now botId message level lg) botId).getD []).length ≤ 1000 ∧
    (dictGet (add_many_logs now botId level msgs []) botId).getD [] =
      rtakeN 1000 (msgs.map (fun m => logEntry now level m)) ∧
    ((dictGet (add_many_logs now botId level msgs []) botId).getD []).length =
      min msgs.length 1000 ∧
    capture_stdout_line now botId line lg = lg ∧
    (dictGet s.bot_logs botId = some L →
      dictGet ((webhook_handler now (Except.ok 200) botId s).2).bot_logs botId =
        some (L ++ ["[" ++ now ++ "] WEBHOOK: Received update from Telegram"])) := by
  have hmain := add_many_logs_lookup now botId level msgs [] (by simp [dictGet])
  refine ⟨?_, ?_, ?_, rfl, ?_⟩
  · rw [add_bot_log_lookup]
    simp [rtakeN_length]
  · simpa [dictGet] using hmain
  · rw [hmain]
    simp [dictGet, rtakeN_length]
  · intro h
    simp [webhook_handler, h, dictGet_dictSet_self]

/-- Witness for C5's amended theorem: a single webhook delivery for a bot
with an empty log buffer appends exactly the receive entry, unevicted. -/
theorem c5_amended_ringbuffer_witness :
    dictGet ((webhook_handler "t" (Except.ok 200) "b1" serverWithBot).2).bot_logs "b1" =
      some ["[t] WEBHOOK: Received update from Telegram"] :=
  (c5_amended_ringbuffer "t" "b1" "INFO" "m" "l" [] [] serverWithBot []).2.2.2.2 rfl

/-! ### Code-store roundtrip lemmas -/

theorem strStarts_dir (d b : String) : strStarts (d ++ ("/" ++ b)) (d ++ "/") = true := by
  rw [← String.append_assoc]
  exact strStarts_append (d ++ "/") b

theorem univNewlinesList_eq_self {l : List Char}
    (h : l.any (fun c => c = '\r') = false) : univNewlinesList l = l := by
  induction l with
  | nil => rfl
  | cons c rest ih =>
    simp only [List.any_cons, Bool.or_eq_false_iff, decide_eq_false_iff_not] at h
    obtain ⟨hc, hrest⟩ := h
    simp [univNewlinesList, hc, ih hrest]

theorem univNewlinesList_no_CR (l : List Char) :
    (univNewlinesList l).any (fun c => c = '\r') = false := by
  induction l using univNewlinesList.induct with
  | case1 => rfl
  | case2 rest ih => simp [univNewlinesList, ih]
  | case3 rest h ih => simp [univNewlinesList, ih]
  | case4 c rest h1 h2 ih =>
    simp [univNewlinesList, ih]
    exact h2

theorem univNewlines_eq_self {s : String} (h : hasCR s = false) : univNewlines s = s := by
  obtain ⟨d⟩ := s
  exact congrArg String.mk (univNewlinesList_eq_self h)

theorem univNewlines_ne_self {s : String} (h : hasCR s = true) : univNewlines s ≠ s := by
  obtain ⟨d⟩ := s
  intro hc
  have hdata : univNewlinesList d = d := congrArg String.data hc
  have h2 := univNewlinesList_no_CR d
  rw [hdata] at h2
  have h3 : d.any (fun c => c = '\r') = true := h
  rw [h2] at h3
  simp at h3

/-- Reduction of optimized_store_bot_files when the read-back verification
passes (the code survives text-mode reading unchanged). -/
theorem store_noCR_reduce (now botId userId code token botName : String)
    (fs : Dict String) (lg : Dict (List String)) (h : univNewlines code = code) :
    (optimized_store_bot_files now botId userId code token botName fs lg).1 =
      { success := true, error := none } ∧
    (optimized_store_bot_files now botId userId code token botName fs lg).2.1 =
      dictSet (dictSet (dictSet fs
          (("/data/bots/" ++ userId ++ "/" ++ botId) ++ "/main.py") code)
        (("/data/bots/" ++ userId ++ "/" ++ botId) ++ "/metadata.json")
        (metadataJson botId userId botName now token code))
        (("/data/bots/" ++ userId ++ "/" ++ botId) ++ "/logs/bot.log")
        ("[" ++ now ++ "] [INFO] Bot " ++ botId ++ " stored successfully\n") := by
  have hn : ¬(univNewlines code ≠ code) := by simp [h]
  constructor
  · simp only [optimized_store_bot_files]
    rw [if_neg hn]
  · simp only [optimized_store_bot_files]
    rw [if_neg hn]

/-- Reduction of optimized_store_bot_files when the read-back verification
fails (carriage-return-containing code). -/
theorem store_CR_reduce (now botId userId code token botName : String)
    (fs : Dict String) (lg : Dict (List String)) (h : univNewlines code ≠ code) :
    (optimized_store_bot_files now botId userId code token botName fs lg).1 =
      { success := false, error := some "File content verification failed" } := by
  simp only [optimized_store_bot_files]
  rw [if_pos h]

/-- Contents of the volume after optimized_store_bot_files, addressed by
the bot directory `d`: `main.py` reads back exactly the stored code. -/
theorem store_paths_main (fs : Dict String) (d code meta lgline : String) :
    dictGet (dictSet (dictSet (dictSet fs (d ++ "/main.py") code)
        (d ++ "/metadata.json") meta) (d ++ "/logs/bot.log") lgline)
      (d ++ "/main.py") = some code := by
  rw [dictGet_dictSet_ne _ _ (string_append_right_ne d (by decide)),
    dictGet_dictSet_ne _ _ (string_append_right_ne d (by decide)),
    dictGet_dictSet_self]

theorem store_paths_meta (fs : Dict String) (d code meta lgline : String) :
    dictGet (dictSet (dictSet (dictSet fs (d ++ "/main.py") code)
        (d ++ "/metadata.json") meta) (d ++ "/logs/bot.log") lgline)
      (d ++ "/metadata.json") = some meta := by
  rw [dictGet_dictSet_ne _ _ (string_append_right_ne d (by decide)),
    dictGet_dictSet_self]

theorem store_paths_exists (fs : Dict String) (d code meta lgline : String) :
    pathExists (dictSet (dictSet (dictSet fs (d ++ "/main.py") code)
        (d ++ "/metadata.json") meta) (d ++ "/logs/bot.log") lgline) d = true := by
  apply List.any_eq_true.mpr
  refine ⟨(d ++ "/main.py", code),
    dictGet_mem (store_paths_main fs d code meta lgline), ?_⟩
  have h2 : strStarts (d ++ "/main.py") (d ++ "/") = true := by
    have h3 : d ++ "/main.py" = d ++ ("/" ++ "main.py") := rfl
    rw [h3]
    exact strStarts_dir d "main.py"
  simp [h2]

/-- optimized_load_bot_files on a volume whose bot directory holds both
`main.py` and `metadata.json`. -/
theorem load_found (botId userId : String) (fs : Dict String) (c m : String)
    (hex : pathExists fs ("/data/bots/" ++ userId ++ "/" ++ botId) = true)
    (hmain : dictGet fs (("/data/bots/" ++ userId ++ "/" ++ botId) ++ "/main.py") = some c)
    (hmeta : dictGet fs (("/data/bots/" ++ userId ++ "/" ++ botId) ++ "/metadata.json") = some m) :
    optimized_load_bot_files botId userId fs =
      { success := true, error := none,
        files := [("main.py", univNewlines c), ("metadata.json", univNewlines m)] } := by
  simp [optimized_load_bot_files, hex, hmain, hmeta, dictGet]

/-- C4 counterexample (the claim as stated): a source containing a carriage
return is not returned byte-identical — the store's text-mode read-back
verification fails (`success=false`, "File content verification failed"),
and loading the written file returns the newline-translated text, not the
submitted bytes. -/
theorem c4_counterexample :
    (optimized_store_bot_files "t" "b1" "u1" "a\rb" "tok" "Bot1" [] []).1.success = false ∧
    dictGet (optimized_load_bot_files "b1" "u1"
        (optimized_store_bot_files "t" "b1" "u1" "a\rb" "tok" "Bot1" [] []).2.1).files
      "main.py" ≠ some "a\rb" := by
  constructor
  · decide
  · decide

/-- C4 (amended): for every tenant, botId and source text free of carriage
returns, storing the bot's code succeeds and loading it back returns source
text byte-identical to what was submitted; a source containing a carriage
return instead fails the store's text-mode read-back verification,
reported as `success=false` with "File content verification failed". -/
theorem c4_store_load_roundtrip (now botId userId code token botName : String)
    (fs : Dict String) (lg : Dict (List String)) :
    (hasCR code = false →
      (optimized_store_bot_files now botId userId code token botName fs lg).1.success = true ∧
      dictGet (optimized_load_bot_files botId userId
          (optimized_store_bot_files now botId userId code token botName fs lg).2.1).files
        "main.py" = some code) ∧
    (hasCR code = true →
      (optimized_store_bot_files now botId userId code token botName fs lg).1 =
        { success := false, error := some "File content verification failed" }) := by
  constructor
  · intro h
    have heq := univNewlines_eq_self h
    obtain ⟨h1, h2⟩ := store_noCR_reduce now botId userId code token botName fs lg heq
    refine ⟨by rw [h1], ?_⟩
    rw [h2, load_found botId userId _ code (metadataJson botId userId botName now token code)
      (store_paths_exists fs _ code _ _) (store_paths_main fs _ code _ _)
      (store_paths_meta fs _ code _ _)]
    simp [dictGet, heq]
  · intro h
    exact store_CR_reduce now botId userId code token botName fs lg (univNewlines_ne_self h)

/-- Witness for C4's amended theorem: a concrete carriage-return-free
source round-trips byte-identically. -/
theorem c4_store_load_roundtrip_witness :
    (optimized_store_bot_files "t" "b1" "u1" "print(1)" "tok" "Bot1" [] []).1.success = true ∧
    dictGet (optimized_load_bot_files "b1" "u1"
        (optimized_store_bot_files "t" "b1" "u1" "print(1)" "tok" "Bot1" [] []).2.1).files
      "main.py" = some "print(1)" :=
  (c4_store_load_roundtrip "t" "b1" "u1" "print(1)" "tok" "Bot1" [] []).1 (by decide)

/-- C7 counterexample (the claim as stated): a request whose fields all
validate but whose source contains a carriage return does not persist a new
BotRecord — the store's text-mode read-back verification raises, the
endpoint reports `success=false` in the envelope, and no metadata record is
written. -/
theorem c7_counterexample :
    (optimized_store_bot_endpoint "t" "b1" (some "u1") (some "a\rb") (some "tok")
        none [] []).1 =
      { success := false, error := some "File content verification failed" } ∧
    dictGet (optimized_store_bot_endpoint "t" "b1" (some "u1") (some "a\rb") (some "tok")
        none [] []).2.1
      (("/data/bots/" ++ "u1" ++ "/" ++ "b1") ++ "/metadata.json") = none := by
  constructor
  · decide
  · decide

/-- C7 (amended): create validates that the required fields are present and
non-empty — whenever the tenant (user_id), the source (bot_code) or the
token is missing or empty, the operation fails with the validation error
reported in the `success=false` envelope (the raised HTTPException is
caught by the endpoint's own handler, not a crash) and nothing is
persisted. When validation passes and the source contains no carriage
return, the new bot record is persisted (its `main.py` holds the submitted
source); a carriage-return-containing source passes validation but fails
the store's read-back verification, reported as `success=false` in the
envelope. -/
theorem c7_create_validation (now botId : String)
    (user_id bot_code bot_token bot_name : Option String)
    (fs : Dict String) (lg : Dict (List String)) :
    ((pyTruthy user_id && pyTruthy bot_code && pyTruthy bot_token) = false →
      (optimized_store_bot_endpoint now botId user_id bot_code bot_token bot_name fs lg).1 =
        { success := false, error := some "400: Missing required fields" } ∧
      (optimized_store_bot_endpoint now botId user_id bot_code bot_token bot_name fs lg).2.1 = fs) ∧
    ((pyTruthy user_id && pyTruthy bot_code && pyTruthy bot_token) = true →
      hasCR (bot_code.getD "") = false →
      (optimized_store_bot_endpoint now botId user_id bot_code bot_token bot_name fs lg).1.success
          = true ∧
      dictGet
        (optimized_store_bot_endpoint now botId user_id bot_code bot_token bot_name fs lg).2.1
        (("/data/bots/" ++ user_id.getD "" ++ "/" ++ botId) ++ "/main.py") =
        some (bot_code.getD "")) ∧
    ((pyTruthy user_id && pyTruthy bot_code && pyTruthy bot_token) = true →
      hasCR (bot_code.getD "") = true →
      (optimized_store_bot_endpoint now botId user_id bot_code bot_token bot_name fs lg).1 =
        { success := false, error := some "File content verification failed" }) := by
  refine ⟨?_, ?_, ?_⟩
  · intro h
    constructor
    · simp [optimized_store_bot_endpoint, h]
    · simp [optimized_store_bot_endpoint, h]
  · intro h hcr
    have heq : optimized_store_bot_endpoint now botId user_id bot_code bot_token bot_name fs lg =
        optimized_store_bot_files now botId (user_id.getD "") (bot_code.getD "")
          (bot_token.getD "") (bot_name.getD ("Bot " ++ botId)) fs lg := by
      simp [optimized_store_bot_endpoint, h]
    rw [heq]
    obtain ⟨h1, h2⟩ := store_noCR_reduce now botId (user_id.getD "") (bot_code.getD "")
      (bot_token.getD "") (bot_name.getD ("Bot " ++ botId)) fs lg (univNewlines_eq_self hcr)
    refine ⟨by rw [h1], ?_⟩
    rw [h2]
    exact store_paths_main fs _ _ _ _
  · intro h hcr
    have heq : optimized_store_bot_endpoint now botId user_id bot_code bot_token bot_name fs lg =
        optimized_store_bot_files now botId (user_id.getD "") (bot_code.getD "")
          (bot_token.getD "") (bot_name.getD ("Bot " ++ botId)) fs lg := by
      simp [optimized_store_bot_endpoint, h]
    rw [heq]
    exact store_CR_reduce now botId (user_id.getD "") (bot_code.getD "")
      (bot_token.getD "") (bot_name.getD ("Bot " ++ botId)) fs lg
      (univNewlines_ne_self hcr)

/-- Witness for C7's amended theorem: a request missing the token is
rejected with the error envelope and persists nothing; a complete
carriage-return-free request persists the code; a complete request with a
carriage return fails the store verification. -/
theorem c7_create_validation_witness :
    ((optimized_store_bot_endpoint "t" "b1" (some "u1") (some "print(1)") none none [] []).1 =
        { success := false, error := some "400: Missing required fields" } ∧
      (optimized_store_bot_endpoint "t" "b1" (some "u1") (some "print(1)") none none [] []).2.1
        = []) ∧
    ((optimized_store_bot_endpoint "t" "b1" (some "u1") (some "print(1)") (some "tok") none
        [] []).1.success = true ∧
      dictGet (optimized_store_bot_endpoint "t" "b1" (some "u1") (some "print(1)") (some "tok")
          none [] []).2.1
        (("/data/bots/" ++ "u1" ++ "/" ++ "b1") ++ "/main.py") = some "print(1)") ∧
    (optimized_store_bot_endpoint "t" "b1" (some "u1") (some "x\ry") (some "tok")
        none [] []).1 =
      { success := false, error := some "File content verification failed" } :=
  ⟨(c7_create_validation "t" "b1" (some "u1") (some "print(1)") none none [] []).1 (by decide),
   (c7_create_validation "t" "b1" (some "u1") (some "print(1)") (some "tok") none [] []).2.1
     (by decide) (by decide),
   (c7_create_validation "t" "b1" (some "u1") (some "x\ry") (some "tok") none [] []).2.2
     (by decide) (by decide)⟩

/-- C1 counterexample (the claim as stated): in the Modal runtime's
handle_webhook, an exception raised while forwarding the update to the
loaded bot instance (`process_update`) is re-raised as `HTTPException(500)`
— a transport-level error to the webhook sender, not a swallowed failure. -/
theorem c1_counterexample :
    (handle_webhook "t" (Except.ok "u") ExecOutcome.loaded true (Except.error "boom")
        "b1" modalWithBot).1 = HResp.httpError 500 "boom" := rfl

/-- C1 (amended): the process-runner server's webhook_handler always
acknowledges the sender — on a forwarding failure it returns a plain
`success=true, forwarded=false` JSON body carrying the error only in the
body, and appends the error to the bot's in-memory log when the bot has a
log buffer; the Modal runtime's handle_webhook, however, only acknowledges
load failures (`ok=false` with HTTP 200), while an exception during update
processing is surfaced as a transport-level HTTP 500. -/
theorem c1_amended_ack (now e botId b : String) (s : ServerState) (L : List String)
    (st : ModalState) (ex : ExecOutcome) :
    (webhook_handler now (Except.error e) botId s).1 =
      { success := true, forwarded := false, error := some e } ∧
    (dictGet s.bot_logs botId = some L →
      dictGet ((webhook_handler now (Except.error e) botId s).2).bot_logs botId =
        some (L ++ ["[" ++ now ++ "] WEBHOOK: Received update from Telegram",
                    "[" ++ now ++ "] WEBHOOK ERROR: " ++ e])) ∧
    ((dictGet st.bot_instances botId).isSome = true →
      (handle_webhook now (Except.ok b) ex true (Except.error e) botId st).1 =
        HResp.httpError 500 e) := by
  refine ⟨?_, ?_, ?_⟩
  · simp [webhook_handler]
  · intro h
    simp [webhook_handler, h, dictGet_dictSet_self, List.append_assoc]
  · intro h
    obtain ⟨inst, hDef⟩ := Option.isSome_iff_exists.mp h
    simp [handle_webhook, hDef]

/-- Witness for C1's amended theorem on concrete states: a server whose bot
has an (empty) log buffer and a failing forward, and a Modal state with a
loaded bot whose processing raises. -/
theorem c1_amended_ack_witness :
    (webhook_handler "t" (Except.error "down") "b1" serverWithBot).1 =
      { success := true, forwarded := false, error := some "down" } ∧
    dictGet ((webhook_handler "t" (Except.error "down") "b1" serverWithBot).2).bot_logs "b1" =
      some ["[t] WEBHOOK: Received update from Telegram", "[t] WEBHOOK ERROR: down"] ∧
    (handle_webhook "t" (Except.ok "u") ExecOutcome.loaded true (Except.error "down")
        "b1" modalWithBot).1 = HResp.httpError 500 "down" :=
  ⟨(c1_amended_ack "t" "down" "b1" "u" serverWithBot [] modalWithBot ExecOutcome.loaded).1,
   (c1_amended_ack "t" "down" "b1" "u" serverWithBot [] modalWithBot ExecOutcome.loaded).2.1 rfl,
   (c1_amended_ack "t" "down" "b1" "u" serverWithBot [] modalWithBot ExecOutcome.loaded).2.2 rfl⟩

/-! ### Registry well-formedness lemmas -/

theorem mem_keys_dictSet (m : Dict Nat) (k k2 : String) (v : Nat)
    (h : k2 ∈ (dictSet m k v).map Prod.fst) : k2 ∈ m.map Prod.fst ∨ k2 = k := by
  induction m with
  | nil =>
    simp only [dictSet, List.map_cons, List.map_nil, List.mem_cons,
      List.not_mem_nil, or_false] at h
    exact Or.inr h
  | cons kv rest ih =>
    obtain ⟨a, b⟩ := kv
    by_cases hak : a = k
    · rw [show dictSet ((a, b) :: rest) k v = (a, v) :: rest from by
        simp [dictSet, hak]] at h
      simp only [List.map_cons, List.mem_cons] at h
      rcases h with h | h
      · exact Or.inr (h.trans hak)
      · exact Or.inl (List.mem_cons_of_mem _ h)
    · rw [show dictSet ((a, b) :: rest) k v = (a, b) :: dictSet rest k v from by
        simp [dictSet, hak]] at h
      simp only [List.map_cons, List.mem_cons] at h
      rcases h with h | h
      · rw [h]
        exact Or.inl (List.mem_cons_self _ _)
      · rcases ih h with h1 | h1
        · exact Or.inl (List.mem_cons_of_mem _ h1)
        · exact Or.inr h1

theorem keysNodup_dictSet (m : Dict Nat) (k : String) (v : Nat)
    (h : keysNodup m) : keysNodup (dictSet m k v) := by
  induction m with
  | nil => simp [dictSet, keysNodup]
  | cons kv rest ih =>
    obtain ⟨a, b⟩ := kv
    unfold keysNodup at h
    rw [List.map_cons, List.nodup_cons] at h
    obtain ⟨ha, hrest⟩ := h
    by_cases hak : a = k
    · rw [show dictSet ((a, b) :: rest) k v = (a, v) :: rest from by simp [dictSet, hak]]
      unfold keysNodup
      rw [List.map_cons, List.nodup_cons]
      exact ⟨ha, hrest⟩
    · rw [show dictSet ((a, b) :: rest) k v = (a, b) :: dictSet rest k v from by
        simp [dictSet, hak]]
      unfold keysNodup
      rw [List.map_cons, List.nodup_cons]
      refine ⟨?_, ih hrest⟩
      intro hmem
      rcases mem_keys_dictSet rest k a v hmem with h1 | h1
      · exact ha h1
      · exact hak h1

theorem keysNodup_dictDel (m : Dict Nat) (k : String) (h : keysNodup m) :
    keysNodup (dictDel m k) :=
  List.Nodup.sublist (List.Sublist.map Prod.fst (List.filter_sublist m)) h

theorem terminateProc_mem {ps : List Proc} {pid : Nat} {q : Proc}
    (hq : q ∈ terminateProc ps pid) (hpid : q.pid = pid) : q.terminated = true := by
  unfold terminateProc at hq
  rcases List.mem_map.mp hq with ⟨p, hp, hqe⟩
  by_cases hpp : p.pid = pid
  · rw [← hqe]
    simp [hpp]
  · rw [← hqe] at hpid
    rw [if_neg hpp] at hpid
    exact absurd hpid hpp

/-- C2 counterexample (the claim as stated): create_bot on a bot that
already has a live registry handle installs a replacement handle (the new
pid) while the existing handle's process is left alive and never
terminated — the "first terminates the existing handle" part of the claim
fails. -/
theorem c2_counterexample :
    (create_bot "t" 0 none "b1" "c1" "run_webhook(" "tok" serverWithBot).2.procs.find?
        (fun q => q.pid == 0) =
      some { pid := 0, exited := false, terminated := false } ∧
    dictGet (create_bot "t" 0 none "b1" "c1" "run_webhook(" "tok"
        serverWithBot).2.running_bots "b1" = some 1 := by
  constructor
  · rfl
  · rfl

/-- C2 (amended): the registry is a keyed map, so at most one handle per
botId exists at any time (key-uniqueness is preserved by create_bot,
update_bot_code and stop_bot); update_bot_code does terminate the existing
handle's process before installing the replacement; create_bot, however,
overwrites the handle without terminating the previous process (see the
counterexample). -/
theorem c2_amended_registry (now : String) (hv : Nat) (sp : Option String)
    (botId containerId code tok newCode : String) (s : ServerState) (pid : Nat) (q : Proc) :
    (keysNodup s.running_bots →
      keysNodup ((create_bot now hv sp botId containerId code tok s).2.running_bots) ∧
      keysNodup ((update_bot_code now hv sp botId newCode tok s).2.running_bots) ∧
      keysNodup ((stop_bot botId s).2.running_bots)) ∧
    (dictGet s.running_bots botId = some pid → pid < s.nextPid →
      (q ∈ (update_bot_code now hv sp botId newCode tok s).2.procs → q.pid = pid →
        q.terminated = true) ∧
      (sp = none →
        dictGet ((update_bot_code now hv sp botId newCode tok s).2).running_bots botId =
          some s.nextPid)) := by
  constructor
  · intro h
    refine ⟨?_, ?_, ?_⟩
    · rcases sp with _ | e
      · simpa [create_bot] using keysNodup_dictSet s.running_bots botId s.nextPid h
      · simpa [create_bot] using h
    · rcases sp with _ | e <;> rcases hb : dictGet s.running_bots botId with _ | pid0
      · simpa [update_bot_code, hb] using keysNodup_dictSet s.running_bots botId s.nextPid h
      · simpa [update_bot_code, hb] using
          keysNodup_dictSet (dictDel s.running_bots botId) botId s.nextPid
            (keysNodup_dictDel s.running_bots botId h)
      · simpa [update_bot_code, hb] using h
      · simpa [update_bot_code, hb] using keysNodup_dictDel s.running_bots botId h
    · rcases hb : dictGet s.running_bots botId with _ | pid0
      · simpa [stop_bot, hb] using h
      · simpa [stop_bot, hb] using keysNodup_dictDel s.running_bots botId h
  · intro hget hfresh
    have hprocs : (update_bot_code now hv sp botId newCode tok s).2.procs =
        terminateProc s.procs pid ++
          (match sp with
            | none => [{ pid := s.nextPid, exited := false, terminated := false }]
            | some _ => []) := by
      rcases sp with _ | e2 <;> simp [update_bot_code, hget]
    constructor
    · intro hq hqpid
      rw [hprocs] at hq
      rcases List.mem_append.mp hq with h1 | h1
      · exact terminateProc_mem h1 hqpid
      · rcases hsp2 : sp with _ | e2
        · rw [hsp2] at h1
          simp at h1
          rw [h1] at hqpid
          simp at hqpid
          omega
        · rw [hsp2] at h1
          simp at h1
    · intro hsp
      subst hsp
      simp [update_bot_code, hget, dictGet_dictSet_self]

/-- Witness for C2's amended theorem: updating a running bot keeps the
registry well-formed, terminates the old process (pid 0, now marked
terminated in the result), and installs the fresh handle (pid 1). -/
theorem c2_amended_registry_witness :
    keysNodup ((update_bot_code "t" 0 none "b1" "print(2)" "tok" serverWithBot).2.running_bots) ∧
    ({ pid := 0, exited := false, terminated := true } : Proc).terminated = true ∧
    dictGet ((update_bot_code "t" 0 none "b1" "print(2)" "tok"
        serverWithBot).2).running_bots "b1" = some 1 :=
  ⟨((c2_amended_registry "t" 0 none "b1" "c1" "x" "tok" "print(2)" serverWithBot 0
      { pid := 0, exited := false, terminated := true }).1
        (by unfold keysNodup; decide)).2.1,
   ((c2_amended_registry "t" 0 none "b1" "c1" "x" "tok" "print(2)" serverWithBot 0
      { pid := 0, exited := false, terminated := true }).2 rfl (by decide)).1 (by decide) rfl,
   ((c2_amended_registry "t" 0 none "b1" "c1" "x" "tok" "print(2)" serverWithBot 0
      { pid := 0, exited := false, terminated := true }).2 rfl (by decide)).2 rfl⟩

/-- C8 counterexample (the claim as stated): update_bot_code does not
overwrite the stored source with `newCode` itself — the stored text is the
webhook-patched transform. With `newCode = "application.run_polling()"`,
the written `bot_b1.py` is the substituted `run_webhook(...)` call, not the
submitted text. -/
theorem c8_counterexample :
    dictGet (update_bot_code "t" 0 none "b1" "application.run_polling()" "tok"
        emptyServer).2.files "bot_b1.py" ≠ some "application.run_polling()" := by
  decide

/-- C8 (amended): update_bot_code is observably the strict sequence
terminate-if-running → overwrite the stored code with the webhook-patched
transform of newCode (equal to newCode itself when no patch pattern
occurs) → clear logs and errors → start again; and when the stop succeeds
but the restart fails, the stored code remains the patched new code (no
rollback), the registry holds no handle for the bot, and the failure is
reported in the `success=false` envelope. -/
theorem c8_amended_sequence (now : String) (hv : Nat) (sp : Option String)
    (botId newCode tok e : String) (s : ServerState) :
    (update_bot_code now hv sp botId newCode tok s).2 =
      startAgainStep sp botId (clearLogsStep botId (overwriteCodeStep hv botId newCode
        (stopIfRunningStep botId s))) ∧
    (sp = some e →
      dictGet (update_bot_code now hv sp botId newCode tok s).2.files
          ("bot_" ++ botId ++ ".py") = some (update_webhook_code hv botId newCode) ∧
      dictGet (update_bot_code now hv sp botId newCode tok s).2.running_bots botId = none ∧
      (update_bot_code now hv sp botId newCode tok s).1 =
        { success := false, message := none, error := some e }) := by
  constructor
  · rcases hb : dictGet s.running_bots botId with _ | pid <;> rcases sp with _ | e2 <;>
      simp [update_bot_code, stopIfRunningStep, overwriteCodeStep, clearLogsStep,
        startAgainStep, hb]
  · intro hsp
    subst hsp
    rcases hb : dictGet s.running_bots botId with _ | pid <;>
      simp [update_bot_code, hb, dictGet_dictSet_self, dictGet_dictDel_self]

/-- Witness for C8's amended theorem: updating the running bot "b1" with a
failing restart leaves the patched new code stored, no registry handle, and
the error envelope. -/
theorem c8_amended_sequence_witness :
    (update_bot_code "t" 0 (some "boom") "b1" "print(3)" "tok" serverWithBot).2 =
      startAgainStep (some "boom") "b1" (clearLogsStep "b1" (overwriteCodeStep 0 "b1"
        "print(3)" (stopIfRunningStep "b1" serverWithBot))) ∧
    dictGet (update_bot_code "t" 0 (some "boom") "b1" "print(3)" "tok"
        serverWithBot).2.files "bot_b1.py" = some (update_webhook_code 0 "b1" "print(3)") ∧
    dictGet (update_bot_code "t" 0 (some "boom") "b1" "print(3)" "tok"
        serverWithBot).2.running_bots "b1" = none ∧
    (update_bot_code "t" 0 (some "boom") "b1" "print(3)" "tok" serverWithBot).1 =
      { success := false, message := none, error := some "boom" } :=
  ⟨(c8_amended_sequence "t" 0 (some "boom") "b1" "print(3)" "tok" "boom" serverWithBot).1,
   ((c8_amended_sequence "t" 0 (some "boom") "b1" "print(3)" "tok" "boom" serverWithBot).2
     rfl).1,
   ((c8_amended_sequence "t" 0 (some "boom") "b1" "print(3)" "tok" "boom" serverWithBot).2
     rfl).2.1,
   ((c8_amended_sequence "t" 0 (some "boom") "b1" "print(3)" "tok" "boom" serverWithBot).2
     rfl).2.2⟩
